import Mathlib

/-!
# Verification of the content_repurposer job pipeline and client

Shallow embedding of the repository's data model (frontend `types.ts`),
the mock data layer (`services/mockData.ts`), the job-detail client logic
(`JobDetail.tsx`), the job-list filtering (`JobList.tsx`), the polling hook
(`useJobs.ts`), and a spec-modelled orchestrator for the backend pipeline
that is not part of the shipped sources.

Randomness (`Math.random`) and clocks (`new Date()`) are passed in as
explicit parameters, so every embedded function is a pure function of its
inputs.
-/

namespace ContentRepurposer

/-- Content types supported by the API (enum `ContentType` in `types.ts`). -/
inductive ContentType where
  | TWITTER
  | INSTAGRAM
  | LINKEDIN
  | FACEBOOK
  | THUMBNAIL
  | TWITTER_IMAGE
  | INSTAGRAM_IMAGE
  deriving DecidableEq, Repr

/-- The string value of each `ContentType` enum member. -/
def ContentType.val : ContentType → String
  | .TWITTER => "twitter"
  | .INSTAGRAM => "instagram"
  | .LINKEDIN => "linkedin"
  | .FACEBOOK => "facebook"
  | .THUMBNAIL => "thumbnail"
  | .TWITTER_IMAGE => "twitter_image"
  | .INSTAGRAM_IMAGE => "instagram_image"

/-- Job status (enum `JobStatus` in `types.ts`). -/
inductive JobStatus where
  | PENDING
  | PROCESSING
  | COMPLETED
  | FAILED
  deriving DecidableEq, Repr

/-- One produced artifact (`interface JobOutput` in `types.ts`).
Timestamps are modelled as epoch instants (`Nat`). -/
structure JobOutput where
  id : String
  content_type : ContentType
  content : Option String
  file_path : Option String
  created_at : Nat
  updated_at : Nat
  deriving DecidableEq, Repr

/-- The `job_metadata` object of a Job (`types.ts`): the requested content
types plus the optional generation options the client recognizes. -/
structure JobMetadata where
  content_types : List ContentType
  tone : Option String
  hashtags : Option (List String)
  style : Option String
  deriving DecidableEq, Repr

/-- A repurposing job (`interface Job` in `types.ts`). -/
structure Job where
  id : String
  title : String
  status : JobStatus
  created_at : Nat
  updated_at : Nat
  completed_at : Option Nat
  error_message : Option String
  job_metadata : JobMetadata
  outputs : List JobOutput
  deriving DecidableEq, Repr

/-- The metadata object of a submission (`interface ContentSubmissionForm`
in `types.ts`). -/
structure FormMetadata where
  tone : Option String
  hashtags : Option (List String)
  style : Option String
  deriving DecidableEq, Repr

/-- A content submission (`interface ContentSubmissionForm` in `types.ts`). -/
structure ContentSubmissionForm where
  title : String
  content : String
  content_types : List ContentType
  metadata : Option FormMetadata
  deriving DecidableEq, Repr

/-! ## `services/mockData.ts` -/

/-- The image-family test in `createMockOutput`:
`contentType === THUMBNAIL || contentType === TWITTER_IMAGE || contentType === INSTAGRAM_IMAGE`. -/
def isImageType (t : ContentType) : Bool :=
  t = ContentType.THUMBNAIL ∨ t = ContentType.TWITTER_IMAGE ∨ t = ContentType.INSTAGRAM_IMAGE

/-- Embeds `createMockOutput` from `mockData.ts`. The random id suffix and the two
random dates are passed in explicitly. -/
def createMockOutput (jobId rid : String) (contentType : ContentType)
    (createdAt updatedAt : Nat) : JobOutput :=
  { id := "output-" ++ rid
    content_type := contentType
    content :=
      if isImageType contentType then none
      else some ("Mock content for " ++ contentType.val ++
        ". This is a generated text for demonstration purposes.")
    file_path :=
      if isImageType contentType then
        some ("https://picsum.photos/seed/" ++ jobId ++ "/800/600")
      else none
    created_at := createdAt
    updated_at := updatedAt }

/-- The `contentTypes.map(type => createMockOutput(id, type))` step of
`createMockJob`, with per-output random ids and dates indexed by position. -/
def mkMockOutputs (jobId : String) (rid : Nat → String) (oca oua : Nat → Nat) :
    Nat → List ContentType → List JobOutput
  | _, [] => []
  | i, t :: ts =>
      createMockOutput jobId (rid i) t (oca i) (oua i) ::
        mkMockOutputs jobId rid oca oua (i + 1) ts

/-- Embeds `createMockJob` from `mockData.ts`. The random draws (status, content
types, dates, output-id suffixes) are passed in explicitly; the extra
thumbnail output pushed after the mapped outputs is kept as in the source. -/
def createMockJob (id : String) (status : JobStatus) (contentTypes : List ContentType)
    (createdAt updatedAt completedDate : Nat)
    (rid : Nat → String) (oca oua : Nat → Nat) : Job :=
  let outputs :=
    mkMockOutputs id rid oca oua 0 contentTypes ++
      [createMockOutput id (rid contentTypes.length) ContentType.THUMBNAIL
        (oca contentTypes.length) (oua contentTypes.length)]
  { id := id
    title := "Mock Job " ++ id
    status := status
    created_at := createdAt
    updated_at := updatedAt
    completed_at := if status = JobStatus.COMPLETED then some completedDate else none
    error_message := if status = JobStatus.FAILED then some "Mock error message" else none
    job_metadata :=
      { content_types := contentTypes
        tone := some "professional"
        hashtags := some ["mock", "test", "demo"]
        style := none }
    outputs := outputs }

/-- Embeds `createNewMockJob` from `mockData.ts`: `jobCount` stands for
`mockJobs.length`, `now` for `new Date().toISOString()`. The
`...data.metadata` spread copies the recognized option fields. -/
def createNewMockJob (jobCount : Nat) (now : Nat) (data : ContentSubmissionForm) : Job :=
  { id := "job-" ++ toString (jobCount + 1)
    title := data.title
    status := JobStatus.PENDING
    created_at := now
    updated_at := now
    completed_at := none
    error_message := none
    job_metadata :=
      { content_types := data.content_types
        tone := data.metadata.bind FormMetadata.tone
        hashtags := data.metadata.bind FormMetadata.hashtags
        style := data.metadata.bind FormMetadata.style }
    outputs := [] }

/-! ## `hooks/useJobs.ts` and the `JobDetail` auto-refresh effect -/

/-- The `refetchInterval` callback of `useJobs.getJob`: `5000` when the
fetched job's status is `pending` or `processing`, `false` (here `none`)
otherwise, including when no data has arrived yet. -/
def refetchInterval (data : Option Job) : Option Nat :=
  match data with
  | some j =>
      if j.status = JobStatus.PENDING ∨ j.status = JobStatus.PROCESSING then some 5000
      else none
  | none => none

/-- The guard of the `JobDetail` auto-refresh effect: an interval is
installed exactly when the loaded job is `PENDING` or `PROCESSING`. -/
def autoRefreshActive (job : Option Job) : Bool :=
  match job with
  | some j => j.status == JobStatus.PENDING || j.status == JobStatus.PROCESSING
  | none => false

/-! ## `JobDetail.tsx` -/

/-- Embeds `handleSaveEditing` from `JobDetail.tsx`: replaces the `content` field of
the output whose id matches, in the locally held job object, and nothing
else; no API call is made. -/
def saveEditing (job : Job) (outputId : String) (edited : String) : Job :=
  { job with
      outputs := job.outputs.map fun output =>
        if output.id = outputId then { output with content := some edited } else output }

/-- JS `String.prototype.includes`: substring containment. -/
def strIncludes (hay needle : String) : Bool :=
  decide (needle.data <:+: hay.data)

/-- JS `String.prototype.startsWith`: prefix test on the characters. -/
def strStartsWith (s pre : String) : Bool :=
  List.isPrefixOf pre.data s.data

/-- JS `indexOf`-style split: the part of the list before the first
occurrence of `pat` and the part after it, or `none` when `pat` does not
occur. -/
def splitAtFirst (pat : List Char) : List Char → Option (List Char × List Char)
  | [] => if pat.isPrefixOf ([] : List Char) then some ([], []) else none
  | c :: t =>
      if pat.isPrefixOf (c :: t) then some ([], (c :: t).drop pat.length)
      else (splitAtFirst pat t).map fun p => (c :: p.1, p.2)

/-- The `serverBaseUrl` computation in `getBaseStorageUrls`: everything
before the first `/api` of the base URL, or the base URL itself when it
has no `/api`. -/
def serverBaseOf (baseUrl : String) : String :=
  match splitAtFirst "/api".data baseUrl.data with
  | some p => String.mk p.1
  | none => baseUrl

/-- Dropping one leading slash from a character sequence (the
`normalizedPath.startsWith('/')` branch of `getBaseStorageUrls`). -/
def dropLeadingSlash (cs : List Char) : List Char :=
  match cs with
  | '/' :: rest => rest
  | cs => cs

/-- The `normalizedPath` computation in `getBaseStorageUrls`: drop
everything up to and including the first `storage/` substring, then drop a
leading slash. -/
def normalizeStoragePath (filePath : String) : String :=
  let afterStorage :=
    match splitAtFirst "storage/".data filePath.data with
    | some p => p.2
    | none => filePath.data
  String.mk (dropLeadingSlash afterStorage)

/-- JS `path.split('/').pop()`: the last `/`-separated component. -/
def lastComponent (s : String) : String :=
  (s.splitOn "/").getLastD ""

/-- Embeds `getBaseStorageUrls` from `JobDetail.tsx`. `baseUrl` stands for
`api.defaults.baseURL || 'http://localhost:8001/api'`. -/
def getBaseStorageUrls (baseUrl filePath : String) : List String :=
  if filePath = "" then []
  else if strStartsWith filePath "http://" || strStartsWith filePath "https://" then [filePath]
  else
    let serverBaseUrl := serverBaseOf baseUrl
    let normalizedPath := normalizeStoragePath filePath
    let lastComp := lastComponent normalizedPath
    [serverBaseUrl ++ "/storage/" ++ normalizedPath,
     serverBaseUrl ++ "/storage/twitter_images/" ++ normalizedPath,
     serverBaseUrl ++ "/storage/instagram_images/" ++ normalizedPath,
     serverBaseUrl ++ "/storage/linkedin_images/" ++ normalizedPath,
     serverBaseUrl ++ "/storage/facebook_images/" ++ normalizedPath,
     serverBaseUrl ++ "/storage/thumbnails/" ++ normalizedPath,
     serverBaseUrl ++ "/storage/twitter_images/" ++ lastComp,
     serverBaseUrl ++ "/storage/instagram_images/" ++ lastComp,
     serverBaseUrl ++ "/storage/linkedin_images/" ++ lastComp,
     serverBaseUrl ++ "/storage/facebook_images/" ++ lastComp,
     serverBaseUrl ++ "/storage/thumbnails/" ++ lastComp]

/-! ## `JobList.tsx` -/

/-- The filter predicate of `filteredJobs` in `JobList.tsx`: the status
filter (`none` stands for `'all'`) and the case-insensitive search over the
job's title and id. -/
def matchesFilter (statusFilter : Option JobStatus) (searchTerm : String) (job : Job) : Bool :=
  (match statusFilter with
   | none => true
   | some s => job.status == s) &&
  (searchTerm == "" ||
    strIncludes job.title.toLower searchTerm.toLower ||
    strIncludes job.id.toLower searchTerm.toLower)

/-- The descending `created_at` comparator used by `filteredJobs`'s sort. -/
def jobDescOrder (a b : Job) : Prop :=
  b.created_at ≤ a.created_at

instance : DecidableRel jobDescOrder :=
  fun a b => Nat.decLe b.created_at a.created_at

instance : IsTotal Job jobDescOrder :=
  ⟨fun a b => Nat.le_total b.created_at a.created_at⟩

instance : IsTrans Job jobDescOrder :=
  ⟨fun _ _ _ hab hbc => Nat.le_trans hbc hab⟩

/-- Embeds `filteredJobs` from `JobList.tsx`: filter, then sort by `created_at`
descending (the JS comparator `b.created_at - a.created_at`). -/
def filteredJobs (jobs : List Job) (statusFilter : Option JobStatus)
    (searchTerm : String) : List Job :=
  List.insertionSort jobDescOrder (jobs.filter (matchesFilter statusFilter searchTerm))

/-- Embeds `paginatedJobs` from `JobList.tsx`:
`filteredJobs.slice(page * rowsPerPage, page * rowsPerPage + rowsPerPage)`. -/
def paginatedJobs (jobs : List Job) (statusFilter : Option JobStatus)
    (searchTerm : String) (page rowsPerPage : Nat) : List Job :=
  ((filteredJobs jobs statusFilter searchTerm).drop (page * rowsPerPage)).take rowsPerPage

/-! ## Spec-modelled Orchestrator core

The backend pipeline (Orchestrator, generators, worker loop) is not part of
the shipped sources — only the web client is. The definitions below are
modelled from the spec (§4.1, §6): a generator attempt per requested
content type, partial-failure semantics, and the asymmetric completion
rule. The aggregated error message is modelled structurally as the list of
(content type, cause) pairs. -/

/-- Modelled from the spec: the recognized generation options
`{tone, visualStyle, hashtags}` (§6, "Generator configuration"). -/
structure GenOptions where
  tone : String
  visualStyle : String
  hashtags : List String
  deriving DecidableEq, Repr

/-- Modelled from the spec: the outcome of running the Orchestrator on a
job's requested content types. -/
structure OrchResult where
  status : JobStatus
  outputs : List (ContentType × String)
  failures : List (ContentType × String)
  error_message : Option (List (ContentType × String))
  deriving DecidableEq, Repr

/-- Modelled from the spec: the per-type attempt results — every requested
content type is attempted through its generator, with the options passed
along in the GenerationRequest. -/
def orchAttempts (req : List ContentType) (opts : GenOptions)
    (gen : ContentType → GenOptions → Except String String) :
    List (ContentType × Except String String) :=
  req.map fun t => (t, gen t opts)

/-- Modelled from the spec: the Outputs appended by the Orchestrator — one
per successful generator attempt, never created speculatively. -/
def orchOutputs (req : List ContentType) (opts : GenOptions)
    (gen : ContentType → GenOptions → Except String String) :
    List (ContentType × String) :=
  (orchAttempts req opts gen).filterMap fun p =>
    match p.2 with
    | .ok c => some (p.1, c)
    | .error _ => none

/-- Modelled from the spec: the recorded per-artifact failures — a failed
generation is recorded with its content type and cause but does not abort
the job. -/
def orchFailures (req : List ContentType) (opts : GenOptions)
    (gen : ContentType → GenOptions → Except String String) :
    List (ContentType × String) :=
  (orchAttempts req opts gen).filterMap fun p =>
    match p.2 with
    | .ok _ => none
    | .error e => some (p.1, e)

/-- Modelled from the spec: the Orchestrator core of §4.1 (absent from the
shipped sources). Every requested content type is attempted through its
generator; successes become Outputs, failures are recorded; the job is
COMPLETED when at least one Output was produced and FAILED with the
aggregated per-type error list when zero were. -/
def orchestrate (req : List ContentType) (opts : GenOptions)
    (gen : ContentType → GenOptions → Except String String) : OrchResult :=
  { status :=
      if (orchOutputs req opts gen).isEmpty then JobStatus.FAILED else JobStatus.COMPLETED
    outputs := orchOutputs req opts gen
    failures := orchFailures req opts gen
    error_message :=
      if (orchOutputs req opts gen).isEmpty then some (orchFailures req opts gen)
      else none }

/-! ## Helper lemmas -/

theorem mkMockOutputs_length (jobId : String) (rid : Nat → String) (oca oua : Nat → Nat)
    (i : Nat) (ts : List ContentType) :
    (mkMockOutputs jobId rid oca oua i ts).length = ts.length := by
  induction ts generalizing i with
  | nil => rfl
  | cons t ts ih => simp [mkMockOutputs, ih]

theorem mkMockOutputs_countP (jobId : String) (rid : Nat → String) (oca oua : Nat → Nat)
    (i : Nat) (ts : List ContentType) (t : ContentType) :
    (mkMockOutputs jobId rid oca oua i ts).countP (fun o => o.content_type == t) =
      ts.countP (fun x => x == t) := by
  induction ts generalizing i with
  | nil => rfl
  | cons x ts ih =>
    simp only [mkMockOutputs, List.countP_cons, ih]
    rfl

theorem createMockOutput_content_type (jobId rid : String) (t : ContentType) (ca ua : Nat) :
    (createMockOutput jobId rid t ca ua).content_type = t := rfl

theorem string_append3_ne_empty (a b c : String) (h : 0 < a.length) :
    a ++ b ++ c ≠ "" := by
  intro he
  have hlen := congrArg String.length he
  rw [String.length_append, String.length_append] at hlen
  simp only [String.length_empty] at hlen
  omega

end ContentRepurposer

namespace ContentRepurposer

/-! ## Claim theorems -/

/-- C6: every newly created job (the `createNewMockJob` path of the
Submission Gateway in the client) starts in status PENDING with an empty
outputs list, a null error_message and a null completed_at timestamp. -/
theorem c6_new_job_initial_state (jobCount now : Nat) (data : ContentSubmissionForm) :
    (createNewMockJob jobCount now data).status = JobStatus.PENDING ∧
    (createNewMockJob jobCount now data).outputs = [] ∧
    (createNewMockJob jobCount now data).error_message = none ∧
    (createNewMockJob jobCount now data).completed_at = none :=
  ⟨rfl, rfl, rfl, rfl⟩

/-- C4: every `createMockOutput` artifact has exactly one non-empty payload
field: inline content (non-null, non-empty) with a null file locator for
the text content types, and a file locator (non-null, non-empty) with null
inline content exactly for the image types thumbnail, twitter_image and
instagram_image. -/
theorem c4_output_payload_exclusive (jobId rid : String) (t : ContentType) (ca ua : Nat) :
    ((createMockOutput jobId rid t ca ua).content = none ↔
      (t = ContentType.THUMBNAIL ∨ t = ContentType.TWITTER_IMAGE ∨
        t = ContentType.INSTAGRAM_IMAGE)) ∧
    ((createMockOutput jobId rid t ca ua).file_path = none ↔
      ¬(t = ContentType.THUMBNAIL ∨ t = ContentType.TWITTER_IMAGE ∨
        t = ContentType.INSTAGRAM_IMAGE)) ∧
    (createMockOutput jobId rid t ca ua).content ≠ some "" ∧
    (createMockOutput jobId rid t ca ua).file_path ≠ some "" := by
  have hne : ∀ b : String, "https://picsum.photos/seed/" ++ b ++ "/800/600" ≠ "" :=
    fun b => string_append3_ne_empty _ b _ (by decide)
  cases t <;>
    refine ⟨by simp [createMockOutput, isImageType],
      by simp [createMockOutput, isImageType], ?_, ?_⟩ <;>
    simp [createMockOutput, isImageType] <;>
    first
    | decide
    | exact hne jobId

/-- C4 witness: concrete instantiation at a thumbnail output and a twitter
text output. -/
theorem c4_output_payload_exclusive_witness :
    (createMockOutput "job-1" "abc" ContentType.THUMBNAIL 0 0).content = none ∧
    (createMockOutput "job-1" "abc" ContentType.TWITTER 0 0).content ≠ some "" :=
  ⟨(c4_output_payload_exclusive "job-1" "abc" ContentType.THUMBNAIL 0 0).1.mpr
      (Or.inl rfl),
   (c4_output_payload_exclusive "job-1" "abc" ContentType.TWITTER 0 0).2.2.1⟩

/-- C2 counterexample: a FAILED mock job from `createMockJob` has
`completed_at = null` (the source only sets it for COMPLETED), refuting
"completed_at is non-null iff status is COMPLETED or FAILED" as stated. -/
theorem c2_counterexample :
    ¬(((createMockJob "1" JobStatus.FAILED [ContentType.TWITTER] 0 0 5
          (fun _ => "r") (fun _ => 0) (fun _ => 0)).completed_at ≠ none) ↔
        ((createMockJob "1" JobStatus.FAILED [ContentType.TWITTER] 0 0 5
          (fun _ => "r") (fun _ => 0) (fun _ => 0)).status = JobStatus.COMPLETED ∨
         (createMockJob "1" JobStatus.FAILED [ContentType.TWITTER] 0 0 5
          (fun _ => "r") (fun _ => 0) (fun _ => 0)).status = JobStatus.FAILED)) := by
  intro h
  exact absurd (h.mpr (Or.inr rfl)) (by simp [createMockJob])

/-- C2 amended: for every job built by `createMockJob` or
`createNewMockJob`, `error_message` is non-null iff the status is FAILED,
and `completed_at` is non-null iff the status is COMPLETED (not COMPLETED
or FAILED). -/
theorem c2_terminal_field_invariants (id : String) (status : JobStatus)
    (contentTypes : List ContentType) (ca ua cd : Nat)
    (rid : Nat → String) (oca oua : Nat → Nat)
    (jobCount now : Nat) (data : ContentSubmissionForm) :
    ((createMockJob id status contentTypes ca ua cd rid oca oua).error_message ≠ none ↔
      (createMockJob id status contentTypes ca ua cd rid oca oua).status = JobStatus.FAILED) ∧
    ((createMockJob id status contentTypes ca ua cd rid oca oua).completed_at ≠ none ↔
      (createMockJob id status contentTypes ca ua cd rid oca oua).status = JobStatus.COMPLETED) ∧
    ((createNewMockJob jobCount now data).error_message ≠ none ↔
      (createNewMockJob jobCount now data).status = JobStatus.FAILED) ∧
    ((createNewMockJob jobCount now data).completed_at ≠ none ↔
      (createNewMockJob jobCount now data).status = JobStatus.COMPLETED) := by
  refine ⟨?_, ?_, by simp [createNewMockJob], by simp [createNewMockJob]⟩ <;>
    cases status <;> simp [createMockJob, createNewMockJob]

/-- C2 amended witness: concrete instantiation at a FAILED mock job. -/
theorem c2_terminal_field_invariants_witness :
    (createMockJob "1" JobStatus.FAILED [] 0 0 5
      (fun _ => "r") (fun _ => 0) (fun _ => 0)).error_message ≠ none :=
  (c2_terminal_field_invariants "1" JobStatus.FAILED [] 0 0 5
      (fun _ => "r") (fun _ => 0) (fun _ => 0) 0 0
      ⟨"t", "c", [], none⟩).1.mpr rfl

end ContentRepurposer

namespace ContentRepurposer

/-- C3 counterexample: a COMPLETED mock job requesting only `thumbnail`
holds two outputs (the mapped one plus the unconditionally pushed extra
thumbnail), so the output count exceeds the number of requested content
types and the `thumbnail` type carries two outputs. -/
theorem c3_counterexample :
    (createMockJob "1" JobStatus.COMPLETED [ContentType.THUMBNAIL] 0 0 5
        (fun _ => "r") (fun _ => 0) (fun _ => 0)).status = JobStatus.COMPLETED ∧
    ¬((createMockJob "1" JobStatus.COMPLETED [ContentType.THUMBNAIL] 0 0 5
        (fun _ => "r") (fun _ => 0) (fun _ => 0)).outputs.length ≤
      (createMockJob "1" JobStatus.COMPLETED [ContentType.THUMBNAIL] 0 0 5
        (fun _ => "r") (fun _ => 0) (fun _ => 0)).job_metadata.content_types.length) ∧
    ((createMockJob "1" JobStatus.COMPLETED [ContentType.THUMBNAIL] 0 0 5
        (fun _ => "r") (fun _ => 0) (fun _ => 0)).outputs.filter
      (fun o => o.content_type == ContentType.THUMBNAIL)).length = 2 := by
  refine ⟨rfl, ?_, ?_⟩ <;>
    simp [createMockJob, mkMockOutputs, createMockOutput, isImageType, List.filter]

/-- C3 amended: for every `createMockJob` job with duplicate-free requested
content types, the number of outputs equals the number of requested types
plus one (the extra pushed thumbnail); every content type other than
`thumbnail` has at most one output, and `thumbnail` has at most two. -/
theorem c3_amended_output_multiplicity (id : String) (status : JobStatus)
    (contentTypes : List ContentType) (ca ua cd : Nat)
    (rid : Nat → String) (oca oua : Nat → Nat)
    (hnd : contentTypes.Nodup) :
    (createMockJob id status contentTypes ca ua cd rid oca oua).outputs.length =
      (createMockJob id status contentTypes ca ua cd rid oca oua).job_metadata.content_types.length + 1 ∧
    (∀ t, t ≠ ContentType.THUMBNAIL →
      ((createMockJob id status contentTypes ca ua cd rid oca oua).outputs.filter
        (fun o => o.content_type == t)).length ≤ 1) ∧
    ((createMockJob id status contentTypes ca ua cd rid oca oua).outputs.filter
      (fun o => o.content_type == ContentType.THUMBNAIL)).length ≤ 2 := by
  have hcount : ∀ t : ContentType, contentTypes.count t ≤ 1 :=
    List.nodup_iff_count_le_one.mp hnd
  refine ⟨?_, ?_, ?_⟩
  · simp [createMockJob, mkMockOutputs_length]
  · intro t ht
    simp only [createMockJob, List.filter_append, List.length_append,
      ← List.countP_eq_length_filter, mkMockOutputs_countP]
    have h2 :
        List.countP (fun o => o.content_type == t)
          [createMockOutput id (rid contentTypes.length) ContentType.THUMBNAIL
            (oca contentTypes.length) (oua contentTypes.length)] = 0 := by
      simp [List.countP_cons, createMockOutput_content_type]
      exact fun h => absurd h.symm ht
    rw [h2]
    have hc : List.countP (fun x => x == t) contentTypes = contentTypes.count t := rfl
    rw [hc]
    have := hcount t
    omega
  · simp only [createMockJob, List.filter_append, List.length_append,
      ← List.countP_eq_length_filter, mkMockOutputs_countP]
    have h2 :
        List.countP (fun o => o.content_type == ContentType.THUMBNAIL)
          [createMockOutput id (rid contentTypes.length) ContentType.THUMBNAIL
            (oca contentTypes.length) (oua contentTypes.length)] ≤ 1 := by
      have h3 : (createMockOutput id (rid contentTypes.length) ContentType.THUMBNAIL
          (oca contentTypes.length) (oua contentTypes.length)).content_type =
          ContentType.THUMBNAIL := rfl
      simp [List.countP_cons, h3]
    have hc : List.countP (fun x => x == ContentType.THUMBNAIL) contentTypes =
        contentTypes.count ContentType.THUMBNAIL := rfl
    rw [hc]
    have := hcount ContentType.THUMBNAIL
    omega

/-- C3 amended witness: concrete instantiation at a two-type request. -/
theorem c3_amended_output_multiplicity_witness :
    (createMockJob "1" JobStatus.COMPLETED [ContentType.TWITTER, ContentType.LINKEDIN]
      0 0 5 (fun _ => "r") (fun _ => 0) (fun _ => 0)).outputs.length =
      (createMockJob "1" JobStatus.COMPLETED [ContentType.TWITTER, ContentType.LINKEDIN]
        0 0 5 (fun _ => "r") (fun _ => 0) (fun _ => 0)).job_metadata.content_types.length + 1 :=
  (c3_amended_output_multiplicity "1" JobStatus.COMPLETED
    [ContentType.TWITTER, ContentType.LINKEDIN] 0 0 5
    (fun _ => "r") (fun _ => 0) (fun _ => 0) (by decide)).1

end ContentRepurposer

namespace ContentRepurposer

theorem orchOutputs_length_add_failures_length (req : List ContentType) (opts : GenOptions)
    (gen : ContentType → GenOptions → Except String String) :
    (orchOutputs req opts gen).length + (orchFailures req opts gen).length = req.length := by
  induction req with
  | nil => rfl
  | cons t ts ih =>
    simp only [orchOutputs, orchFailures, orchAttempts, List.map_cons,
      List.filterMap_cons, List.filterMap_map] at ih ⊢
    cases gen t opts <;> simp <;> omega

theorem mem_orchFailures (req : List ContentType) (opts : GenOptions)
    (gen : ContentType → GenOptions → Except String String) (t : ContentType) (e : String) :
    (t, e) ∈ orchFailures req opts gen ↔ t ∈ req ∧ gen t opts = Except.error e := by
  constructor
  · intro h
    rcases List.mem_filterMap.mp h with ⟨p, hp, hf⟩
    rcases List.mem_map.mp hp with ⟨a, ha, rfl⟩
    cases hg : gen a opts with
    | ok c => rw [hg] at hf; simp at hf
    | error e2 =>
      rw [hg] at hf
      simp only [Option.some.injEq, Prod.mk.injEq] at hf
      obtain ⟨rfl, rfl⟩ := hf
      exact ⟨ha, hg⟩
  · rintro ⟨ht, hg⟩
    refine List.mem_filterMap.mpr ⟨(t, gen t opts), List.mem_map.mpr ⟨t, ht, rfl⟩, ?_⟩
    rw [hg]

theorem orchOutputs_map_fst_congr (req : List ContentType) (o₁ o₂ : GenOptions)
    (gen₁ gen₂ : ContentType → GenOptions → Except String String)
    (h : ∀ t, (gen₁ t o₁).isOk = (gen₂ t o₂).isOk) :
    (orchOutputs req o₁ gen₁).map Prod.fst = (orchOutputs req o₂ gen₂).map Prod.fst := by
  induction req with
  | nil => rfl
  | cons t ts ih =>
    have ht := h t
    simp only [orchOutputs, orchAttempts, List.map_cons, List.filterMap_cons,
      List.filterMap_map] at ih ⊢
    cases h1 : gen₁ t o₁ with
    | ok c₁ =>
      cases h2 : gen₂ t o₂ with
      | ok c₂ => simp [ih]
      | error e₂ => rw [h1, h2] at ht; simp [Except.isOk, Except.toBool] at ht
    | error e₁ =>
      cases h2 : gen₂ t o₂ with
      | ok c₂ => rw [h1, h2] at ht; simp [Except.isOk, Except.toBool] at ht
      | error e₂ => simp [ih]

theorem orchFailures_map_fst_congr (req : List ContentType) (o₁ o₂ : GenOptions)
    (gen₁ gen₂ : ContentType → GenOptions → Except String String)
    (h : ∀ t, (gen₁ t o₁).isOk = (gen₂ t o₂).isOk) :
    (orchFailures req o₁ gen₁).map Prod.fst = (orchFailures req o₂ gen₂).map Prod.fst := by
  induction req with
  | nil => rfl
  | cons t ts ih =>
    have ht := h t
    simp only [orchFailures, orchAttempts, List.map_cons, List.filterMap_cons,
      List.filterMap_map] at ih ⊢
    cases h1 : gen₁ t o₁ with
    | ok c₁ =>
      cases h2 : gen₂ t o₂ with
      | ok c₂ => simp [ih]
      | error e₂ => rw [h1, h2] at ht; simp [Except.isOk, Except.toBool] at ht
    | error e₁ =>
      cases h2 : gen₂ t o₂ with
      | ok c₂ => rw [h1, h2] at ht; simp [Except.isOk, Except.toBool] at ht
      | error e₂ => simp [ih]

/-- C1 (spec-modelled): after all requested content types have been
attempted, the job is COMPLETED iff at least one Output was produced and
FAILED iff zero artifacts succeeded; in the FAILED case the aggregated
error carries exactly the failed content types with their causes; every
requested type is accounted for by exactly one output or one failure. -/
theorem c1_completion_rule (req : List ContentType) (opts : GenOptions)
    (gen : ContentType → GenOptions → Except String String) :
    ((orchestrate req opts gen).status = JobStatus.COMPLETED ↔
      (orchestrate req opts gen).outputs ≠ []) ∧
    ((orchestrate req opts gen).status = JobStatus.FAILED ↔
      (orchestrate req opts gen).outputs = []) ∧
    ((orchestrate req opts gen).error_message ≠ none ↔
      (orchestrate req opts gen).status = JobStatus.FAILED) ∧
    ((orchestrate req opts gen).status = JobStatus.FAILED →
      (orchestrate req opts gen).error_message = some (orchestrate req opts gen).failures) ∧
    (∀ t e, (t, e) ∈ (orchestrate req opts gen).failures ↔
      t ∈ req ∧ gen t opts = Except.error e) ∧
    (orchestrate req opts gen).outputs.length + (orchestrate req opts gen).failures.length =
      req.length := by
  refine ⟨?_, ?_, ?_, ?_, fun t e => mem_orchFailures req opts gen t e,
    orchOutputs_length_add_failures_length req opts gen⟩ <;>
    simp only [orchestrate] <;>
    cases h : (orchOutputs req opts gen).isEmpty <;>
    simp_all [List.isEmpty_iff]

/-- C1 witness: a one-type request whose generator fails produces a FAILED
result whose error names the type and cause. -/
theorem c1_completion_rule_witness :
    (ContentType.TWITTER, "provider down") ∈
      (orchestrate [ContentType.TWITTER] ⟨"pro", "modern", []⟩
        (fun _ _ => Except.error "provider down")).failures :=
  ((c1_completion_rule [ContentType.TWITTER] ⟨"pro", "modern", []⟩
      (fun _ _ => Except.error "provider down")).2.2.2.2.1
    ContentType.TWITTER "provider down").mpr ⟨List.mem_singleton.mpr rfl, rfl⟩

end ContentRepurposer

namespace ContentRepurposer

/-- C5: the generation options carried with a submitted job are exactly the
recognized fields (tone, visual style, hashtags) copied into
`job_metadata`; they are purely advisory: two submissions differing only in
metadata yield jobs identical outside `job_metadata`, and in the
spec-modelled Orchestrator two runs whose generators have the same
success/failure pattern attempt and produce the same artifact types and
reach the same status regardless of the options. -/
theorem c5_options_advisory (jobCount now : Nat) (title content : String)
    (cts : List ContentType) (m : FormMetadata) (m₁ m₂ : Option FormMetadata) :
    (createNewMockJob jobCount now ⟨title, content, cts, some m⟩).job_metadata =
      ⟨cts, m.tone, m.hashtags, m.style⟩ ∧
    ((createNewMockJob jobCount now ⟨title, content, cts, m₁⟩).id =
       (createNewMockJob jobCount now ⟨title, content, cts, m₂⟩).id ∧
     (createNewMockJob jobCount now ⟨title, content, cts, m₁⟩).title =
       (createNewMockJob jobCount now ⟨title, content, cts, m₂⟩).title ∧
     (createNewMockJob jobCount now ⟨title, content, cts, m₁⟩).status =
       (createNewMockJob jobCount now ⟨title, content, cts, m₂⟩).status ∧
     (createNewMockJob jobCount now ⟨title, content, cts, m₁⟩).outputs =
       (createNewMockJob jobCount now ⟨title, content, cts, m₂⟩).outputs ∧
     (createNewMockJob jobCount now ⟨title, content, cts, m₁⟩).job_metadata.content_types =
       (createNewMockJob jobCount now ⟨title, content, cts, m₂⟩).job_metadata.content_types) ∧
    (∀ (o₁ o₂ : GenOptions) (gen₁ gen₂ : ContentType → GenOptions → Except String String),
      (∀ t, (gen₁ t o₁).isOk = (gen₂ t o₂).isOk) →
      (orchestrate cts o₁ gen₁).status = (orchestrate cts o₂ gen₂).status ∧
      (orchestrate cts o₁ gen₁).outputs.map Prod.fst =
        (orchestrate cts o₂ gen₂).outputs.map Prod.fst ∧
      (orchestrate cts o₁ gen₁).failures.map Prod.fst =
        (orchestrate cts o₂ gen₂).failures.map Prod.fst) := by
  refine ⟨rfl, ⟨rfl, rfl, rfl, rfl, rfl⟩, ?_⟩
  intro o₁ o₂ gen₁ gen₂ h
  have ho := orchOutputs_map_fst_congr cts o₁ o₂ gen₁ gen₂ h
  have hf := orchFailures_map_fst_congr cts o₁ o₂ gen₁ gen₂ h
  have hlen : (orchOutputs cts o₁ gen₁).length = (orchOutputs cts o₂ gen₂).length := by
    have := congrArg List.length ho
    simpa using this
  have hemp : (orchOutputs cts o₁ gen₁).isEmpty = (orchOutputs cts o₂ gen₂).isEmpty := by
    rcases h1 : orchOutputs cts o₁ gen₁ with _ | ⟨a, l⟩ <;>
      rcases h2 : orchOutputs cts o₂ gen₂ with _ | ⟨b, l2⟩ <;> simp_all
  exact ⟨by simp only [orchestrate, hemp], ho, hf⟩

/-- C5 witness: concrete instantiation at two option values and
success-pattern-equal generators. -/
theorem c5_options_advisory_witness :
    (createNewMockJob 0 0 ⟨"t", "c", [ContentType.TWITTER],
        some ⟨some "casual", some ["x"], some "retro"⟩⟩).job_metadata =
      ⟨[ContentType.TWITTER], some "casual", some ["x"], some "retro"⟩ ∧
    (orchestrate [ContentType.TWITTER] ⟨"a", "b", []⟩ (fun _ _ => Except.ok "p")).status =
      (orchestrate [ContentType.TWITTER] ⟨"c", "d", ["h"]⟩ (fun _ _ => Except.ok "q")).status :=
  ⟨(c5_options_advisory 0 0 "t" "c" [ContentType.TWITTER]
      ⟨some "casual", some ["x"], some "retro"⟩ none none).1,
   ((c5_options_advisory 0 0 "t" "c" [ContentType.TWITTER]
      ⟨some "casual", some ["x"], some "retro"⟩ none none).2.2
      ⟨"a", "b", []⟩ ⟨"c", "d", ["h"]⟩ (fun _ _ => Except.ok "p") (fun _ _ => Except.ok "q")
      (fun _ => rfl)).1⟩

/-- C7: saving an in-client edit is a pure local update: every job field
except `outputs` is unchanged, the outputs list keeps its length, outputs
whose id differs from the target are untouched, and the targeted output
changes only its `content` field (to the edited text). No embedded
operation performs a backend request, so the persisted Output is never
mutated. -/
theorem c7_save_edit_local_frame (job : Job) (outputId edited : String) :
    (saveEditing job outputId edited).id = job.id ∧
    (saveEditing job outputId edited).title = job.title ∧
    (saveEditing job outputId edited).status = job.status ∧
    (saveEditing job outputId edited).created_at = job.created_at ∧
    (saveEditing job outputId edited).updated_at = job.updated_at ∧
    (saveEditing job outputId edited).completed_at = job.completed_at ∧
    (saveEditing job outputId edited).error_message = job.error_message ∧
    (saveEditing job outputId edited).job_metadata = job.job_metadata ∧
    (saveEditing job outputId edited).outputs.length = job.outputs.length ∧
    (∀ (i : Nat) (o : JobOutput), job.outputs[i]? = some o → o.id ≠ outputId →
      (saveEditing job outputId edited).outputs[i]? = some o) ∧
    (∀ (i : Nat) (o : JobOutput), job.outputs[i]? = some o → o.id = outputId →
      (saveEditing job outputId edited).outputs[i]? =
        some { o with content := some edited }) := by
  refine ⟨rfl, rfl, rfl, rfl, rfl, rfl, rfl, rfl, by simp [saveEditing], ?_, ?_⟩
  · intro i o ho hne
    simp [saveEditing, List.getElem?_map, ho, hne]
  · intro i o ho heq
    simp [saveEditing, List.getElem?_map, ho, heq]

/-- C7 witness: concrete instantiation at a mock job whose first output is
not the edit target. -/
theorem c7_save_edit_local_frame_witness :
    (saveEditing
        (createMockJob "1" JobStatus.COMPLETED [ContentType.TWITTER] 0 0 5
          (fun _ => "r") (fun _ => 0) (fun _ => 0)) "other-id" "new text").outputs[0]? =
      some (createMockOutput "1" "r" ContentType.TWITTER 0 0) :=
  (c7_save_edit_local_frame
      (createMockJob "1" JobStatus.COMPLETED [ContentType.TWITTER] 0 0 5
        (fun _ => "r") (fun _ => 0) (fun _ => 0)) "other-id" "new text").2.2.2.2.2.2.2.2.2.1
    0 (createMockOutput "1" "r" ContentType.TWITTER 0 0) rfl (by decide)

/-- C8: the client polls exactly while the job is non-terminal: the query
refetch interval is 5000 ms iff the status is pending or processing,
`false` (no interval) iff the status is completed or failed or no data has
arrived, and the `JobDetail` auto-refresh effect installs its timer under
the same condition. -/
theorem c8_polling_nonterminal_only (j : Job) :
    (refetchInterval (some j) = some 5000 ↔
      (j.status = JobStatus.PENDING ∨ j.status = JobStatus.PROCESSING)) ∧
    (refetchInterval (some j) = none ↔
      (j.status = JobStatus.COMPLETED ∨ j.status = JobStatus.FAILED)) ∧
    (autoRefreshActive (some j) = true ↔
      (j.status = JobStatus.PENDING ∨ j.status = JobStatus.PROCESSING)) ∧
    refetchInterval none = none := by
  obtain ⟨id, title, st, ca, ua, co, er, md, os⟩ := j
  cases st <;> simp [refetchInterval, autoRefreshActive]

/-- C8 witness: a PENDING job polls at 5000 ms; a COMPLETED job does not. -/
theorem c8_polling_nonterminal_only_witness :
    refetchInterval (some (createNewMockJob 0 0 ⟨"t", "c", [], none⟩)) = some 5000 :=
  (c8_polling_nonterminal_only (createNewMockJob 0 0 ⟨"t", "c", [], none⟩)).1.mpr
    (Or.inl rfl)

end ContentRepurposer

namespace ContentRepurposer

theorem matchesFilter_eq_true_iff (f : Option JobStatus) (term : String) (j : Job) :
    matchesFilter f term j = true ↔
      ((f = none ∨ f = some j.status) ∧
       (term = "" ∨ term.toLower.data <:+: j.title.toLower.data ∨
         term.toLower.data <:+: j.id.toLower.data)) := by
  cases f with
  | none =>
    simp only [matchesFilter, strIncludes, Bool.true_and, Bool.or_eq_true, beq_iff_eq,
      decide_eq_true_eq]
    constructor
    · intro h
      exact ⟨Or.inl trivial, by tauto⟩
    · rintro ⟨_, h⟩
      tauto
  | some s =>
    simp only [matchesFilter, strIncludes, Bool.and_eq_true, Bool.or_eq_true, beq_iff_eq,
      decide_eq_true_eq]
    constructor
    · rintro ⟨hs, ht⟩
      exact ⟨Or.inr (by rw [hs]), by tauto⟩
    · rintro ⟨hs, ht⟩
      rcases hs with hs | hs
      · exact absurd hs (by simp)
      · refine ⟨?_, by tauto⟩
        have hsj : s = j.status := by injection hs
        rw [hsj]

/-- C9: a job appears in the job list's filtered result iff it is in the
fetched list, passes the status filter (`none` stands for `'all'`), and
matches the search term case-insensitively against its title or id; the
filtered result is sorted by `created_at` in descending order; and the
displayed page never holds more than `rowsPerPage` jobs. -/
theorem c9_joblist_filter_sort_page (jobs : List Job) (f : Option JobStatus)
    (term : String) (page rowsPerPage : Nat) :
    (∀ j, j ∈ filteredJobs jobs f term ↔
      (j ∈ jobs ∧ (f = none ∨ f = some j.status) ∧
        (term = "" ∨ term.toLower.data <:+: j.title.toLower.data ∨
          term.toLower.data <:+: j.id.toLower.data))) ∧
    List.Pairwise (fun a b => b.created_at ≤ a.created_at) (filteredJobs jobs f term) ∧
    (paginatedJobs jobs f term page rowsPerPage).length ≤ rowsPerPage := by
  refine ⟨?_, ?_, ?_⟩
  · intro j
    rw [filteredJobs, (List.perm_insertionSort jobDescOrder _).mem_iff, List.mem_filter,
      matchesFilter_eq_true_iff]
  · exact List.sorted_insertionSort jobDescOrder _
  · simp only [paginatedJobs, List.length_take, List.length_drop]
    omega

/-- C9 witness: concrete instantiation at a one-job list. -/
theorem c9_joblist_filter_sort_page_witness :
    createNewMockJob 0 7 ⟨"Alpha", "body", [], none⟩ ∈
      filteredJobs [createNewMockJob 0 7 ⟨"Alpha", "body", [], none⟩] none "" :=
  ((c9_joblist_filter_sort_page [createNewMockJob 0 7 ⟨"Alpha", "body", [], none⟩]
      none "" 0 10).1 _).mpr
    ⟨List.mem_singleton.mpr rfl, Or.inl rfl, Or.inl rfl⟩

theorem splitAtFirst_eq_some (pat : List Char) :
    ∀ cs p q, splitAtFirst pat cs = some (p, q) → cs = p ++ pat ++ q := by
  intro cs
  induction cs with
  | nil =>
    intro p q h
    simp only [splitAtFirst] at h
    split at h
    · rename_i hpre
      have hp : pat = [] := by
        cases pat with
        | nil => rfl
        | cons a l => simp [List.isPrefixOf] at hpre
      simp only [Option.some.injEq, Prod.mk.injEq] at h
      obtain ⟨rfl, rfl⟩ := h
      simp [hp]
    · exact absurd h (by simp)
  | cons c t ih =>
    intro p q h
    simp only [splitAtFirst] at h
    split at h
    · rename_i hpre
      simp only [Option.some.injEq, Prod.mk.injEq] at h
      obtain ⟨rfl, rfl⟩ := h
      obtain ⟨r, hr⟩ := List.isPrefixOf_iff_prefix.mp hpre
      rw [← hr, List.drop_left]
      simp
    · rcases Option.map_eq_some'.mp h with ⟨⟨p', q'⟩, hp', hpq⟩
      simp only [Prod.mk.injEq] at hpq
      obtain ⟨rfl, rfl⟩ := hpq
      simp [ih p' q' hp']

theorem splitAtFirst_eq_none (pat : List Char) :
    ∀ cs, splitAtFirst pat cs = none → ¬ pat <:+: cs := by
  intro cs
  induction cs with
  | nil =>
    intro h hinf
    have hp : pat = [] := List.infix_nil.mp hinf
    subst hp
    simp [splitAtFirst, List.isPrefixOf] at h
  | cons c t ih =>
    intro h hinf
    simp only [splitAtFirst] at h
    split at h
    · exact absurd h (by simp)
    · rename_i hpre
      have ht : splitAtFirst pat t = none := by
        cases hs : splitAtFirst pat t with
        | none => rfl
        | some p => rw [hs] at h; simp at h
      rcases List.infix_cons_iff.mp hinf with hp | hi
      · exact hpre ( List.isPrefixOf_iff_prefix.mpr hp)
      · exact ih ht hi

end ContentRepurposer

namespace ContentRepurposer

/-- C10: `getBaseStorageUrls` returns `[]` for an empty path; returns the
path itself as a singleton when it is already an absolute http(s) URL; and
otherwise returns eleven candidate URLs in a fixed order, each built from
the path normalized by removing everything up to and including the first
`storage/` substring and one leading slash (the last five from its final
`/`-component). -/
theorem c10_storage_url_candidates (baseUrl filePath : String) :
    (filePath = "" → getBaseStorageUrls baseUrl filePath = []) ∧
    ((strStartsWith filePath "http://" = true ∨ strStartsWith filePath "https://" = true) →
      filePath ≠ "" → getBaseStorageUrls baseUrl filePath = [filePath]) ∧
    (filePath ≠ "" → strStartsWith filePath "http://" = false →
      strStartsWith filePath "https://" = false →
      getBaseStorageUrls baseUrl filePath =
        [serverBaseOf baseUrl ++ "/storage/" ++ normalizeStoragePath filePath,
         serverBaseOf baseUrl ++ "/storage/twitter_images/" ++ normalizeStoragePath filePath,
         serverBaseOf baseUrl ++ "/storage/instagram_images/" ++ normalizeStoragePath filePath,
         serverBaseOf baseUrl ++ "/storage/linkedin_images/" ++ normalizeStoragePath filePath,
         serverBaseOf baseUrl ++ "/storage/facebook_images/" ++ normalizeStoragePath filePath,
         serverBaseOf baseUrl ++ "/storage/thumbnails/" ++ normalizeStoragePath filePath,
         serverBaseOf baseUrl ++ "/storage/twitter_images/" ++
           lastComponent (normalizeStoragePath filePath),
         serverBaseOf baseUrl ++ "/storage/instagram_images/" ++
           lastComponent (normalizeStoragePath filePath),
         serverBaseOf baseUrl ++ "/storage/linkedin_images/" ++
           lastComponent (normalizeStoragePath filePath),
         serverBaseOf baseUrl ++ "/storage/facebook_images/" ++
           lastComponent (normalizeStoragePath filePath),
         serverBaseOf baseUrl ++ "/storage/thumbnails/" ++
           lastComponent (normalizeStoragePath filePath)] ∧
      (getBaseStorageUrls baseUrl filePath).length = 11) ∧
    (¬"storage/".data <:+: filePath.data →
      (normalizeStoragePath filePath).data = dropLeadingSlash filePath.data) ∧
    ("storage/".data <:+: filePath.data →
      ∃ pre rest, filePath.data = pre ++ "storage/".data ++ rest ∧
        (normalizeStoragePath filePath).data = dropLeadingSlash rest) := by
  refine ⟨?_, ?_, ?_, ?_, ?_⟩
  · intro h
    simp [getBaseStorageUrls, h]
  · intro h hne
    rcases h with h | h <;> simp [getBaseStorageUrls, hne, h]
  · intro hne h1 h2
    refine ⟨?_, ?_⟩ <;> simp [getBaseStorageUrls, hne, h1, h2]
  · intro h
    cases hs : splitAtFirst "storage/".data filePath.data with
    | none => simp [normalizeStoragePath, hs]
    | some p =>
      exact absurd ⟨p.1, p.2, by simp [splitAtFirst_eq_some _ _ p.1 p.2 (by simpa using hs)]⟩ h
  · intro h
    cases hs : splitAtFirst "storage/".data filePath.data with
    | none => exact absurd h (splitAtFirst_eq_none _ _ hs)
    | some p =>
      exact ⟨p.1, p.2, by simpa using splitAtFirst_eq_some _ _ p.1 p.2 (by simpa using hs),
        by simp [normalizeStoragePath, hs]⟩

/-- C10 witness: concrete instantiations for the empty, absolute-URL and
relative-path cases. -/
theorem c10_storage_url_candidates_witness :
    getBaseStorageUrls "http://localhost:8001/api" "" = [] ∧
    getBaseStorageUrls "http://localhost:8001/api" "https://x.com/a.png" =
      ["https://x.com/a.png"] ∧
    (getBaseStorageUrls "http://localhost:8001/api" "app/storage/thumbnails/p.png").length =
      11 :=
  ⟨(c10_storage_url_candidates "http://localhost:8001/api" "").1 rfl,
   (c10_storage_url_candidates "http://localhost:8001/api" "https://x.com/a.png").2.1
     (Or.inr (by decide)) (by decide),
   ((c10_storage_url_candidates "http://localhost:8001/api"
       "app/storage/thumbnails/p.png").2.2.1 (by decide) (by decide) (by decide)).2⟩

end ContentRepurposer
